import Mathlib

/-!
Shallow embedding of the allocator and container core of the cpp_utils
repository (achilles memory utilities).

Addresses are modelled as natural numbers, with 0 playing the role of the
null pointer (the C++ buffers and heap pointers are never at address 0).
The global byte store is a total function from addresses to byte values.
Debug assertions (the aassert macro, which calls exit(1) on failure in
non-RELEASE builds) are modelled with Except: an operation that trips an
assertion returns an AErr value naming the assertion message.
-/

namespace CppUtils

/-- Global byte memory: address to byte value. -/
def Mem : Type := Nat → Nat

/-- The all-zero memory. -/
def zeroMem : Mem := fun _ => 0

/-- Write one byte. -/
def writeByte (m : Mem) (a v : Nat) : Mem :=
  fun x => if x = a then v else m x

/-- The C memset: fill n bytes starting at a with value v. -/
def memsetM (m : Mem) (a v n : Nat) : Mem :=
  fun x => if a ≤ x ∧ x < a + n then v else m x

/-- The C memcpy into a fresh destination region: the destination bytes
come from a snapshot of the source, matching memcpy's non-overlap
contract (and realloc's copy into a fresh region). -/
def memcpyM (m : Mem) (dst src n : Nat) : Mem :=
  fun x => if dst ≤ x ∧ x < dst + n then m (src + (x - dst)) else m x

/-- Read n consecutive bytes as a list (used to state content preservation). -/
def readBytes (m : Mem) (a n : Nat) : List Nat :=
  (List.range n).map (fun i => m (a + i))

/-- memory.hpp Block: a raw memory span. memory = 0 models nullptr. -/
structure Block where
  memory : Nat
  size : Nat
deriving DecidableEq

/-- Block::isValid: non-null pointer and positive size. -/
def Block.isValid (b : Block) : Bool :=
  b.memory ≠ 0 && b.size > 0

/-- The empty block, Block { nullptr, 0 }. -/
def emptyBlock : Block := ⟨0, 0⟩

/-! ### StackAllocator (README.md lines 108-176)

Template parameter SIZE and the buffer address are fields; ptr is the
absolute address of the bump pointer _ptr (initially base). -/

structure StackState where
  base : Nat
  SIZE : Nat
  ptr : Nat
deriving DecidableEq

/-- StackAllocator::canAllocate: (ptr + size) <= base + SIZE. -/
def StackState.canAllocate (st : StackState) (size : Nat) : Bool :=
  st.ptr + size ≤ st.base + st.SIZE

/-- StackAllocator::owns: non-null and base <= mem <= base + SIZE. -/
def StackState.owns (st : StackState) (b : Block) : Bool :=
  if b.memory = 0 then false
  else st.base ≤ b.memory && b.memory ≤ st.base + st.SIZE

/-- StackAllocator::canDeallocate: non-null and ptr - size == mem
(the block is the most recently allocated one). -/
def StackState.canDeallocate (st : StackState) (b : Block) : Bool :=
  if b.memory = 0 then false
  else (st.ptr : Int) - (b.size : Int) = (b.memory : Int)

/-- StackAllocator::allocate: bump the pointer; no zeroing of memory. -/
def StackState.allocate (st : StackState) (mem : Mem) (size : Nat) :
    Block × StackState × Mem :=
  if st.canAllocate size then
    (⟨st.ptr, size⟩, { st with ptr := st.ptr + size }, mem)
  else
    (emptyBlock, st, mem)

/-- StackAllocator::tryResize: only the top block can resize, and only
if the new end stays within the buffer; newly exposed bytes are zeroed. -/
def StackState.tryResize (st : StackState) (mem : Mem) (b : Block) (newSize : Nat) :
    Bool × Block × StackState × Mem :=
  if (st.ptr : Int) - (b.size : Int) ≠ (b.memory : Int) then
    (false, b, st, mem)
  else
    let diff : Int := (newSize : Int) - (b.size : Int)
    if (st.ptr : Int) + diff ≤ (st.base : Int) + (st.SIZE : Int) then
      let mem' := if b.size < newSize then memsetM mem (b.memory + b.size) 0 (newSize - b.size) else mem
      (true, { b with size := newSize }, { st with ptr := ((st.ptr : Int) + diff).toNat }, mem')
    else
      (false, b, st, mem)

/-- StackAllocator::deallocate: rewind only when owns and canDeallocate
hold; otherwise a silent no-op that leaves the block untouched. -/
def StackState.deallocate (st : StackState) (mem : Mem) (b : Block) :
    Block × StackState × Mem :=
  if !(st.owns b) || !(st.canDeallocate b) then
    (b, st, mem)
  else
    (emptyBlock, { st with ptr := st.ptr - b.size }, mem)

/-! ### MallocAllocator (README.md lines 72-105)

The C heap is abstracted by a fresh-address counter and a byte budget;
malloc/realloc fail exactly when the budget is exhausted, and realloc
moves the data to a fresh address, copying the old contents. The
MallocAllocator zeroes new memory after malloc and zeroes the grown
tail after realloc. It does not override owns/canAllocate/canDeallocate,
so those are the Allocator defaults, which return true. -/

structure MallocState where
  next : Nat
  budget : Nat
deriving DecidableEq

/-- Default Allocator::owns (not overridden by MallocAllocator). -/
def MallocState.owns (_ : MallocState) (_ : Block) : Bool := true

/-- Default Allocator::canAllocate (not overridden by MallocAllocator). -/
def MallocState.canAllocate (_ : MallocState) (_ : Nat) : Bool := true

/-- Default Allocator::canDeallocate (not overridden by MallocAllocator). -/
def MallocState.canDeallocate (_ : MallocState) (_ : Block) : Bool := true

/-- MallocAllocator::allocate: malloc then memset 0; empty block when
malloc fails (modelled as budget exhaustion). -/
def MallocState.allocate (st : MallocState) (mem : Mem) (size : Nat) :
    Block × MallocState × Mem :=
  if size ≤ st.budget then
    (⟨st.next, size⟩, ⟨st.next + size, st.budget - size⟩, memsetM mem st.next 0 size)
  else
    (emptyBlock, st, mem)

/-- MallocAllocator::tryResize: realloc; on success the block points at
the realloc result and a grown tail is zeroed; on failure (realloc
returning null) the block is untouched. Shrinking stays in place;
growing moves to a fresh address with the old contents copied. -/
def MallocState.tryResize (st : MallocState) (mem : Mem) (b : Block) (newSize : Nat) :
    Bool × Block × MallocState × Mem :=
  if newSize ≤ b.size then
    (true, { b with size := newSize }, st, mem)
  else if newSize - b.size ≤ st.budget then
    let dst := st.next
    let mem1 := memcpyM mem dst b.memory b.size
    let mem2 := memsetM mem1 (dst + b.size) 0 (newSize - b.size)
    (true, ⟨dst, newSize⟩, ⟨st.next + newSize, st.budget - (newSize - b.size)⟩, mem2)
  else
    (false, b, st, mem)

/-- MallocAllocator::deallocate: free then invalidate the block. -/
def MallocState.deallocate (_st : MallocState) (mem : Mem) (_b : Block) :
    Block × MallocState × Mem :=
  (emptyBlock, _st, mem)

/-! ### FallbackAllocator (README.md lines 178-237)

Instantiated as in the README usage example with a StackAllocator
primary and a MallocAllocator secondary. -/

structure FallbackState where
  primary : StackState
  secondary : MallocState
deriving DecidableEq

/-- FallbackAllocator::owns: primary.owns || secondary.owns. -/
def FallbackState.owns (st : FallbackState) (b : Block) : Bool :=
  st.primary.owns b || st.secondary.owns b

/-- FallbackAllocator::canAllocate. -/
def FallbackState.canAllocate (st : FallbackState) (size : Nat) : Bool :=
  st.primary.canAllocate size || st.secondary.canAllocate size

/-- FallbackAllocator::canDeallocate. -/
def FallbackState.canDeallocate (st : FallbackState) (b : Block) : Bool :=
  if !(st.owns b) then false
  else if st.primary.owns b then st.primary.canDeallocate b
  else st.secondary.canDeallocate b

/-- FallbackAllocator::allocate: try primary, then secondary. -/
def FallbackState.allocate (st : FallbackState) (mem : Mem) (size : Nat) :
    Block × FallbackState × Mem :=
  let (blk, p1, mem1) := st.primary.allocate mem size
  if blk.isValid then
    (blk, { st with primary := p1 }, mem1)
  else
    let (blk2, s1, mem2) := st.secondary.allocate mem1 size
    (blk2, { primary := p1, secondary := s1 }, mem2)

/-- FallbackAllocator::tryResize, exactly as in the source: when the
primary owns the block but cannot resize it and canDeallocate holds,
fresh space is allocated from the secondary, the bytes are copied, and
then the source calls secondary.deallocate(block) on the old
primary-owned block before rebinding the block to the new space. -/
def FallbackState.tryResize (st : FallbackState) (mem : Mem) (b : Block) (newSize : Nat) :
    Bool × Block × FallbackState × Mem :=
  if st.primary.owns b then
    let (ok, b1, p1, mem1) := st.primary.tryResize mem b newSize
    if ok then
      (true, b1, { st with primary := p1 }, mem1)
    else if st.primary.canDeallocate b1 then
      let (newBlk, s1, mem2) := st.secondary.allocate mem1 newSize
      if newBlk.isValid then
        let mem3 := memcpyM mem2 newBlk.memory b1.memory b1.size
        let (_, s2, mem4) := s1.deallocate mem3 b1
        (true, ⟨newBlk.memory, newBlk.size⟩, { primary := p1, secondary := s2 }, mem4)
      else
        (false, b1, { primary := p1, secondary := s1 }, mem2)
    else
      (false, b1, { st with primary := p1 }, mem1)
  else
    let (ok, b1, s1, mem1) := st.secondary.tryResize mem b newSize
    (ok, b1, { st with secondary := s1 }, mem1)

/-- FallbackAllocator::deallocate: route by primary.owns. -/
def FallbackState.deallocate (st : FallbackState) (mem : Mem) (b : Block) :
    Block × FallbackState × Mem :=
  if st.primary.owns b then
    let (b1, p1, mem1) := st.primary.deallocate mem b
    (b1, { st with primary := p1 }, mem1)
  else
    let (b1, s1, mem1) := st.secondary.deallocate mem b
    (b1, { st with secondary := s1 }, mem1)

/-! ### SimpleAllocationTracker (README.md lines 239-305)

Instantiated as in the README usage example over MallocAllocator. -/

structure TrackerState where
  inner : MallocState
  allocations : Int
  deallocations : Int
  resizes : Int
  successfulResizes : Int
  failedResizes : Int
deriving DecidableEq

/-- SimpleAllocationTracker::allocate. -/
def TrackerState.allocate (st : TrackerState) (mem : Mem) (size : Nat) :
    Block × TrackerState × Mem :=
  let (b, i1, mem1) := st.inner.allocate mem size
  (b, { st with inner := i1, allocations := st.allocations + 1 }, mem1)

/-- SimpleAllocationTracker::tryResize: count, then delegate. -/
def TrackerState.tryResize (st : TrackerState) (mem : Mem) (b : Block) (newSize : Nat) :
    Bool × Block × TrackerState × Mem :=
  let (ok, b1, i1, mem1) := st.inner.tryResize mem b newSize
  (ok, b1,
    { st with inner := i1,
              resizes := st.resizes + 1,
              successfulResizes := st.successfulResizes + (if ok then 1 else 0),
              failedResizes := st.failedResizes + (if ok then 0 else 1) },
    mem1)

/-- SimpleAllocationTracker::deallocate. -/
def TrackerState.deallocate (st : TrackerState) (mem : Mem) (b : Block) :
    Block × TrackerState × Mem :=
  let (b1, i1, mem1) := st.inner.deallocate mem b
  (b1, { st with inner := i1, deallocations := st.deallocations + 1 }, mem1)

/-- SimpleAllocationTracker::leaks. -/
def TrackerState.leaks (st : TrackerState) : Int :=
  st.allocations - st.deallocations

/-! ### The Allocator virtual interface, as a record of operations
(memory.hpp lines 1624-1631), used by the allocator-generic Array. -/

structure AllocOps (σ : Type) where
  allocate : σ → Mem → Nat → Block × σ × Mem
  tryResize : σ → Mem → Block → Nat → Bool × Block × σ × Mem
  deallocate : σ → Mem → Block → Block × σ × Mem

/-- The StackAllocator as an Allocator instance. -/
def stackOps : AllocOps StackState :=
  ⟨StackState.allocate, StackState.tryResize, StackState.deallocate⟩

/-- The MallocAllocator as an Allocator instance. -/
def mallocOps : AllocOps MallocState :=
  ⟨MallocState.allocate, MallocState.tryResize, MallocState.deallocate⟩

/-- The FallbackAllocator as an Allocator instance. -/
def fallbackOps : AllocOps FallbackState :=
  ⟨FallbackState.allocate, FallbackState.tryResize, FallbackState.deallocate⟩

/-- The SimpleAllocationTracker as an Allocator instance. -/
def trackerOps : AllocOps TrackerState :=
  ⟨TrackerState.allocate, TrackerState.tryResize, TrackerState.deallocate⟩

/-! ### Assertion outcomes

aassert calls exit(1) on a failed condition in non-RELEASE builds;
a failed assertion is modelled as an Except error carrying a tag for
the assertion's message string. -/

inductive AErr where
  | gettingInvalidArray
  | gettingEmptyArray
  | poppingInvalidArray
  | poppingEmptyArray
  | swapInvalidArray
  | swapEmptyArray
  | swapFirstOutOfBound
  | swapSecondOutOfBound
  | swapSameIndices
  | removeInvalidArray
  | removeEmptyArray
  | swapRemoveIndexOutOfBound
  | arrayRegionInvalid
  | arrayAccessOutOfBounds
  | regionAccessOutOfBounds
  | aIndexOutOfBounds
  | bIndexOutOfBounds
  | writeInvalidBlock
  | writeTooManyElements
  | oldRemoveIndexOutOfBounds
deriving DecidableEq

/-! ### Array (memory.hpp lines 1876-2061)

Element type u8 (sizeof(type) = 1), so capacity() = _block.size and the
element at index i lives at byte address _block.memory + i. The
_allocator pointer is threaded explicitly as an AllocOps instance plus
its state; the null-allocator case of isValid is not representable. -/

structure ArrayU8 where
  block : Block
  size : Nat
deriving DecidableEq

/-- Array::capacity: _block.size / sizeof(type) with sizeof(type) = 1. -/
def ArrayU8.capacity (a : ArrayU8) : Nat := a.block.size

/-- Array::isValid: allocator non-null (always, here) and block valid. -/
def ArrayU8.isValid (a : ArrayU8) : Bool := a.block.isValid

/-- Array::Array(allocator, capacity): allocates capacity*sizeof(type)
bytes only when capacity > 0; otherwise the block stays { nullptr, 0 }. -/
def mkArrayU8 {σ : Type} (ops : AllocOps σ) (st : σ) (mem : Mem) (capacity : Nat) :
    ArrayU8 × σ × Mem :=
  if 0 < capacity then
    let (b, st1, mem1) := ops.allocate st mem capacity
    ({ block := b, size := 0 }, st1, mem1)
  else
    ({ block := emptyBlock, size := 0 }, st, mem)

/-- Array::push(type const &): on a full array, tryResize to
_block.size * 2; on resize failure return false (the block reference
holds whatever tryResize left); otherwise store at index _size and
increment _size. -/
def ArrayU8.push {σ : Type} (ops : AllocOps σ) (st : σ) (mem : Mem)
    (a : ArrayU8) (v : Nat) : Bool × ArrayU8 × σ × Mem :=
  if !a.isValid then
    (false, a, st, mem)
  else if a.capacity = a.size then
    let (ok, b1, st1, mem1) := ops.tryResize st mem a.block (a.block.size * 2)
    if ok then
      (true, { block := b1, size := a.size + 1 }, st1, writeByte mem1 (b1.memory + a.size) v)
    else
      (false, { a with block := b1 }, st1, mem1)
  else
    (true, { a with size := a.size + 1 }, st, writeByte mem (a.block.memory + a.size) v)

/-- Array::get: asserts validity and non-emptiness but never checks the
index against _size; the read is returned for any index. -/
def ArrayU8.get (a : ArrayU8) (mem : Mem) (index : Nat) : Except AErr Nat :=
  if !a.isValid then .error AErr.gettingInvalidArray
  else if !(a.size > 0) then .error AErr.gettingEmptyArray
  else .ok (mem (a.block.memory + index))

/-- Array::pop. -/
def ArrayU8.pop (a : ArrayU8) (mem : Mem) : Except AErr (Nat × ArrayU8) :=
  if !a.isValid then .error AErr.poppingInvalidArray
  else if !(a.size > 0) then .error AErr.poppingEmptyArray
  else .ok (mem (a.block.memory + (a.size - 1)), { a with size := a.size - 1 })

/-- Array::swap: asserts both indices in bounds and first != second. -/
def ArrayU8.swap (a : ArrayU8) (mem : Mem) (first second : Nat) : Except AErr Mem :=
  if !a.isValid then .error AErr.swapInvalidArray
  else if !(a.size > 0) then .error AErr.swapEmptyArray
  else if !(first < a.size) then .error AErr.swapFirstOutOfBound
  else if !(second < a.size) then .error AErr.swapSecondOutOfBound
  else if first = second then .error AErr.swapSameIndices
  else
    let x := mem (a.block.memory + first)
    let y := mem (a.block.memory + second)
    .ok (writeByte (writeByte mem (a.block.memory + first) y) (a.block.memory + second) x)

/-- Array::swapRemove: swap(index, --_size) — the member _size is
decremented before swap runs, then the element at the new _size is
returned. -/
def ArrayU8.swapRemove (a : ArrayU8) (mem : Mem) (index : Nat) :
    Except AErr (Nat × ArrayU8 × Mem) :=
  if !a.isValid then .error AErr.removeInvalidArray
  else if !(a.size > 0) then .error AErr.removeEmptyArray
  else if !(index < a.size) then .error AErr.swapRemoveIndexOutOfBound
  else
    let a1 : ArrayU8 := { a with size := a.size - 1 }
    match a1.swap mem index (a.size - 1) with
    | .error e => .error e
    | .ok mem1 => .ok (mem1 (a1.block.memory + a1.size), a1, mem1)

/-! ### The historical region/array variant (memory.hpp lines 127-619)

region<T, allocator_f, deallocator_f> carries a raw pointer and a
length; allocator_f is abstracted as a function from request size to the
returned pointer (0 = null). Elements are one byte (sizeof(T) = 1). -/

structure RegionState where
  memory : Nat
  length : Nat
deriving DecidableEq

/-- region::region(u64 length): a zero request is bumped to length 1
before allocating sizeof(T) * length bytes. -/
def regionMk (allocator_f : Nat → Nat) (sizeofT : Nat) (len : Nat) : RegionState :=
  let len1 := if len = 0 then 1 else len
  { memory := allocator_f (sizeofT * len1), length := len1 }

/-- region::isValid. -/
def RegionState.isValid (r : RegionState) : Bool :=
  r.memory ≠ 0 && r.length ≠ 0

/-- The historical array<T>: a region plus a logical length. -/
structure ArrayOld where
  regionMemory : Nat
  regionLength : Nat
  length : Nat
deriving DecidableEq

/-- The underlying region's isValid, as used by the array's asserts. -/
def ArrayOld.regionIsValid (a : ArrayOld) : Bool :=
  a.regionMemory ≠ 0 && a.regionLength ≠ 0

/-- region::operator[] (read): asserts index < region length. -/
def ArrayOld.regionGet (a : ArrayOld) (mem : Mem) (i : Nat) : Except AErr Nat :=
  if !(i < a.regionLength) then .error AErr.regionAccessOutOfBounds
  else .ok (mem (a.regionMemory + i))

/-- region::operator[] (write): asserts index < region length. -/
def ArrayOld.regionSet (a : ArrayOld) (mem : Mem) (i v : Nat) : Except AErr Mem :=
  if !(i < a.regionLength) then .error AErr.regionAccessOutOfBounds
  else .ok (writeByte mem (a.regionMemory + i) v)

/-- array::operator[]: asserts region validity and index < _length. -/
def ArrayOld.getIdx (a : ArrayOld) (mem : Mem) (i : Nat) : Except AErr Nat :=
  if !a.regionIsValid then .error AErr.arrayRegionInvalid
  else if !(i < a.length) then .error AErr.arrayAccessOutOfBounds
  else a.regionGet mem i

/-- array::swap: asserts both indices < _length, then swaps through the
region's checked element accessors. -/
def ArrayOld.swap (a : ArrayOld) (mem : Mem) (aindex bindex : Nat) : Except AErr Mem := do
  if !a.regionIsValid then .error AErr.arrayRegionInvalid
  else if !(aindex < a.length) then .error AErr.aIndexOutOfBounds
  else if !(bindex < a.length) then .error AErr.bIndexOutOfBounds
  else do
    let temp ← a.regionGet mem aindex
    let vb ← a.regionGet mem bindex
    let mem1 ← a.regionSet mem aindex vb
    a.regionSet mem1 bindex temp

/-- array::pop: return _region[--_length]; the u64 decrement wraps when
_length is 0 and the region bounds assert then fires. -/
def ArrayOld.pop (a : ArrayOld) (mem : Mem) : Except AErr (Nat × ArrayOld) :=
  if !a.regionIsValid then .error AErr.arrayRegionInvalid
  else
    let newLen := if a.length = 0 then 2 ^ 64 - 1 else a.length - 1
    let a1 : ArrayOld := { a with length := newLen }
    match a1.regionGet mem newLen with
    | .error e => .error e
    | .ok v => .ok (v, a1)

/-- array::swapRemove: swap(index, _length - 1) then pop(). -/
def ArrayOld.swapRemove (a : ArrayOld) (mem : Mem) (index : Nat) :
    Except AErr (Nat × ArrayOld × Mem) :=
  if !a.regionIsValid then .error AErr.arrayRegionInvalid
  else if !(index < a.length) then .error AErr.oldRemoveIndexOutOfBounds
  else
    match a.swap mem index (a.length - 1) with
    | .error e => .error e
    | .ok mem1 =>
      match ArrayOld.pop { a with } mem1 with
      | .error e => .error e
      | .ok (v, a1) => .ok (v, a1, mem1)

/-! ### writeToFile (files variant with Block, src/unnamed/part_002
lines 89-110)

The filesystem is abstracted by whether fopen succeeds; the returned
list is the byte sequence handed to fwrite. -/

def writeToFile (canOpen : Bool) (b : Block) (mem : Mem) (elementsToWrite : Nat) :
    Except AErr (Bool × List Nat) :=
  if !b.isValid then .error AErr.writeInvalidBlock
  else if !(b.size ≥ elementsToWrite) then .error AErr.writeTooManyElements
  else if canOpen then
    let elementCount := if elementsToWrite ≠ 0 then elementsToWrite else b.size
    .ok (true, readBytes mem b.memory elementCount)
  else
    .ok (false, [])

/-! ### Concrete scenario data used by the claim theorems -/

/-- A memory holding bytes 10, 20, 30 at addresses 100, 101, 102. -/
def memTen : Mem :=
  fun x => if x = 100 then 10 else if x = 101 then 20 else if x = 102 then 30 else 0

/-- Fallback scenario (spec section 8): a 16-byte stack primary at base
100 from which an 8-byte block was allocated (bump pointer at 108), and
an unbounded malloc secondary handing out addresses from 1000. -/
def c1State : FallbackState := ⟨⟨100, 16, 108⟩, ⟨1000, 1000000⟩⟩

/-- The 8-byte block the primary handed out in the fallback scenario. -/
def c1Block : Block := ⟨100, 8⟩

/-- Memory in which that block holds bytes 1..8. -/
def c1Mem : Mem := fun x => if 100 ≤ x ∧ x < 108 then x - 99 else 0

/-- Resizing the 8-byte primary block to 32 bytes through the fallback. -/
def c1Result : Bool × Block × FallbackState × Mem := c1State.tryResize c1Mem c1Block 32

/-! ## Helper lemmas -/

/-- A memset of zero bytes changes nothing. -/
theorem memsetM_len_zero (m : Mem) (a v : Nat) : memsetM m a v 0 = m := by
  funext x
  simp only [memsetM, Nat.add_zero]
  split
  · omega
  · rfl

/-- StackAllocator::tryResize mutates nothing when it returns false. -/
theorem stack_tryResize_fail_unchanged (st : StackState) (mem : Mem) (b : Block) (n : Nat)
    (h : (st.tryResize mem b n).1 = false) :
    st.tryResize mem b n = (false, b, st, mem) := by
  by_cases h1 : (st.ptr : Int) - (b.size : Int) ≠ (b.memory : Int)
  · simp [StackState.tryResize, h1]
  · by_cases h2 : (st.ptr : Int) + ((n : Int) - (b.size : Int)) ≤ (st.base : Int) + (st.SIZE : Int)
    · exfalso
      simp [StackState.tryResize, h1, h2] at h
    · simp [StackState.tryResize, h1, h2]

/-- MallocAllocator::tryResize mutates nothing when it returns false. -/
theorem malloc_tryResize_fail_unchanged (st : MallocState) (mem : Mem) (b : Block) (n : Nat)
    (h : (st.tryResize mem b n).1 = false) :
    st.tryResize mem b n = (false, b, st, mem) := by
  by_cases h1 : n ≤ b.size
  · exfalso
    simp [MallocState.tryResize, h1] at h
  · by_cases h2 : n - b.size ≤ st.budget
    · exfalso
      simp [MallocState.tryResize, h1, h2] at h
    · simp [MallocState.tryResize, h1, h2]

/-- MallocAllocator::allocate leaves the heap state and memory unchanged
when the produced block is invalid, provided the heap hands out non-null
addresses. -/
theorem malloc_allocate_invalid_unchanged (st : MallocState) (mem : Mem) (n : Nat)
    (hnext : 1 ≤ st.next)
    (h : (st.allocate mem n).1.isValid = false) :
    (st.allocate mem n).2.1 = st ∧ (st.allocate mem n).2.2 = mem := by
  by_cases hle : n ≤ st.budget
  · simp only [MallocState.allocate, hle, if_true, Block.isValid, decide_eq_true_eq] at h
    have hn0 : n = 0 := by
      rcases Bool.and_eq_false_iff.mp h with h1 | h2
      · exact absurd h1 (by simp; omega)
      · simpa using h2
    subst hn0
    simp [MallocState.allocate, hle, memsetM_len_zero]
  · simp [MallocState.allocate, hle]

/-- FallbackAllocator::tryResize mutates nothing when it returns false
(the secondary heap hands out non-null addresses). -/
theorem fallback_tryResize_fail_unchanged (st : FallbackState) (mem : Mem) (b : Block) (n : Nat)
    (hsec : 1 ≤ st.secondary.next)
    (h : (st.tryResize mem b n).1 = false) :
    st.tryResize mem b n = (false, b, st, mem) := by
  by_cases howns : st.primary.owns b = true
  · rcases hpr : st.primary.tryResize mem b n with ⟨ok, b1, p1, mem1⟩
    cases ok
    · have hu := stack_tryResize_fail_unchanged st.primary mem b n (by rw [hpr])
      rw [hpr] at hu
      obtain ⟨hb, hp, hm⟩ : b1 = b ∧ p1 = st.primary ∧ mem1 = mem := by
        simpa [Prod.ext_iff] using hu
      subst hb; subst hp; subst hm
      by_cases hcd : st.primary.canDeallocate b1 = true
      · rcases hal : st.secondary.allocate mem1 n with ⟨newBlk, s1, mem2⟩
        by_cases hv : newBlk.isValid = true
        · exfalso
          simp [FallbackState.tryResize, howns, hpr, hcd, hal, hv] at h
        · have hu2 := malloc_allocate_invalid_unchanged st.secondary mem1 n hsec
            (by rw [hal]; simpa using hv)
          rw [hal] at hu2
          obtain ⟨hs, hm2⟩ : s1 = st.secondary ∧ mem2 = mem1 := by
            simpa using hu2
          subst hs; subst hm2
          simp [FallbackState.tryResize, howns, hpr, hcd, hal, hv]
      · simp [FallbackState.tryResize, howns, hpr, hcd]
    · exfalso
      simp [FallbackState.tryResize, howns, hpr] at h
  · rcases hh : st.secondary.tryResize mem b n with ⟨ok, b1, s1, mem1⟩
    have hok : ok = false := by
      simpa [FallbackState.tryResize, howns, hh] using h
    subst hok
    have hu := malloc_tryResize_fail_unchanged st.secondary mem b n (by rw [hh])
    rw [hh] at hu
    obtain ⟨hb, hs, hm⟩ : b1 = b ∧ s1 = st.secondary ∧ mem1 = mem := by
      simpa [Prod.ext_iff] using hu
    subst hb; subst hs; subst hm
    simp [FallbackState.tryResize, howns, hh]

/-- SimpleAllocationTracker::tryResize leaves the block and the memory
unchanged when it returns false (only its counters move). -/
theorem tracker_tryResize_fail_unchanged (st : TrackerState) (mem : Mem) (b : Block) (n : Nat)
    (h : (st.tryResize mem b n).1 = false) :
    (st.tryResize mem b n).2.1 = b ∧ (st.tryResize mem b n).2.2.2 = mem := by
  rcases hh : st.inner.tryResize mem b n with ⟨ok, b1, i1, mem1⟩
  have hok : ok = false := by
    simpa [TrackerState.tryResize, hh] using h
  subst hok
  have hu := malloc_tryResize_fail_unchanged st.inner mem b n (by rw [hh])
  rw [hh] at hu
  obtain ⟨hb, hi, hm⟩ : b1 = b ∧ i1 = st.inner ∧ mem1 = mem := by
    simpa [Prod.ext_iff] using hu
  subst hb; subst hi; subst hm
  simp [TrackerState.tryResize, hh]

/-! ## Claim theorems -/

/-- Claim C1 (code bug). In the fallback migration scenario the code
does everything the claim says — allocates in the secondary, copies the
bytes, rebinds the block and returns true, contents preserved and the
result owned by the secondary — EXCEPT deallocating the old block
through the primary allocator: although primary.canDeallocate holds,
the source calls secondary.deallocate(block) (README.md line 196), so
the primary's bump pointer stays at 108 instead of rewinding to 100
(and with a real malloc secondary this free of a stack pointer is
undefined behavior). -/
theorem c1_fallback_migration_deallocates_through_secondary :
    c1State.primary.owns c1Block = true
    ∧ (c1State.primary.tryResize c1Mem c1Block 32).1 = false
    ∧ c1State.primary.canDeallocate c1Block = true
    ∧ c1Result.1 = true
    ∧ c1Result.2.1 = ⟨1000, 32⟩
    ∧ readBytes c1Result.2.2.2 1000 8 = readBytes c1Mem 100 8
    ∧ c1Result.2.2.1.secondary.owns c1Result.2.1 = true
    ∧ c1Result.2.2.1.primary = c1State.primary
    ∧ c1Result.2.2.1.primary.ptr = 108 := by decide

/-- Claim C2 (confirmed). For every allocator strategy — heap (malloc),
stack, fallback (whose secondary heap hands out non-null addresses) and
tracking — a tryResize call that returns false leaves the block
completely unchanged: same memory pointer, same size, and the byte store
untouched, hence identical contents. For heap, stack and fallback even
the allocator state is unchanged; the tracker only moves its counters. -/
theorem c2_tryResize_failure_leaves_block_unchanged :
    (∀ (st : MallocState) (mem : Mem) (b : Block) (n : Nat),
        (st.tryResize mem b n).1 = false → st.tryResize mem b n = (false, b, st, mem))
    ∧ (∀ (st : StackState) (mem : Mem) (b : Block) (n : Nat),
        (st.tryResize mem b n).1 = false → st.tryResize mem b n = (false, b, st, mem))
    ∧ (∀ (st : FallbackState) (mem : Mem) (b : Block) (n : Nat), 1 ≤ st.secondary.next →
        (st.tryResize mem b n).1 = false → st.tryResize mem b n = (false, b, st, mem))
    ∧ (∀ (st : TrackerState) (mem : Mem) (b : Block) (n : Nat),
        (st.tryResize mem b n).1 = false →
          (st.tryResize mem b n).2.1 = b ∧ (st.tryResize mem b n).2.2.2 = mem) :=
  ⟨malloc_tryResize_fail_unchanged, stack_tryResize_fail_unchanged,
   fallback_tryResize_fail_unchanged, tracker_tryResize_fail_unchanged⟩

/-- Witness for C2: concrete failing resizes for all four strategies. -/
theorem c2_witness :
    ((MallocState.tryResize ⟨1000, 4⟩ zeroMem ⟨500, 8⟩ 32).1 = false
      ∧ MallocState.tryResize ⟨1000, 4⟩ zeroMem ⟨500, 8⟩ 32 = (false, ⟨500, 8⟩, ⟨1000, 4⟩, zeroMem))
    ∧ ((StackState.tryResize ⟨100, 8, 108⟩ zeroMem ⟨100, 8⟩ 16).1 = false
      ∧ StackState.tryResize ⟨100, 8, 108⟩ zeroMem ⟨100, 8⟩ 16 = (false, ⟨100, 8⟩, ⟨100, 8, 108⟩, zeroMem))
    ∧ (1 ≤ (1000 : Nat)
      ∧ (FallbackState.tryResize ⟨⟨100, 16, 108⟩, ⟨1000, 0⟩⟩ zeroMem ⟨100, 8⟩ 32).1 = false
      ∧ FallbackState.tryResize ⟨⟨100, 16, 108⟩, ⟨1000, 0⟩⟩ zeroMem ⟨100, 8⟩ 32
          = (false, ⟨100, 8⟩, ⟨⟨100, 16, 108⟩, ⟨1000, 0⟩⟩, zeroMem))
    ∧ ((TrackerState.tryResize ⟨⟨1000, 4⟩, 0, 0, 0, 0, 0⟩ zeroMem ⟨500, 8⟩ 32).1 = false
      ∧ (TrackerState.tryResize ⟨⟨1000, 4⟩, 0, 0, 0, 0, 0⟩ zeroMem ⟨500, 8⟩ 32).2.1 = ⟨500, 8⟩
      ∧ (TrackerState.tryResize ⟨⟨1000, 4⟩, 0, 0, 0, 0, 0⟩ zeroMem ⟨500, 8⟩ 32).2.2.2 = zeroMem) :=
  ⟨⟨by decide, c2_tryResize_failure_leaves_block_unchanged.1 ⟨1000, 4⟩ zeroMem ⟨500, 8⟩ 32 (by decide)⟩,
   ⟨by decide, c2_tryResize_failure_leaves_block_unchanged.2.1 ⟨100, 8, 108⟩ zeroMem ⟨100, 8⟩ 16 (by decide)⟩,
   ⟨by decide, by decide,
    c2_tryResize_failure_leaves_block_unchanged.2.2.1 ⟨⟨100, 16, 108⟩, ⟨1000, 0⟩⟩ zeroMem ⟨100, 8⟩ 32
      (by decide) (by decide)⟩,
   ⟨by decide,
    c2_tryResize_failure_leaves_block_unchanged.2.2.2 ⟨⟨1000, 4⟩, 0, 0, 0, 0, 0⟩ zeroMem ⟨500, 8⟩ 32
      (by decide)⟩⟩

/-- Claim C3 (code bug). The stack allocator hands back previously used
bytes without re-zeroing: allocate 4 bytes from a fresh 16-byte arena,
fill them with 255, deallocate (which rewinds the bump pointer), then
allocate 4 bytes again — the returned block is valid with size 4 but all
four bytes read 255, not 0. Only the heap allocator memsets in allocate;
the stack allocator relies on construction-time zeroing (and zeroes
grown tails in tryResize), which reuse defeats. -/
theorem c3_stack_allocate_returns_unzeroed_reused_memory :
    ((StackState.allocate ⟨100, 16, 100⟩ zeroMem 4).1 = ⟨100, 4⟩)
    ∧ ((StackState.deallocate ⟨100, 16, 104⟩ (memsetM zeroMem 100 255 4) ⟨100, 4⟩).2.1.ptr = 100)
    ∧ ((StackState.allocate ⟨100, 16, 100⟩ (memsetM zeroMem 100 255 4) 4).1.isValid = true)
    ∧ ((StackState.allocate ⟨100, 16, 100⟩ (memsetM zeroMem 100 255 4) 4).1.size = 4)
    ∧ (readBytes (StackState.allocate ⟨100, 16, 100⟩ (memsetM zeroMem 100 255 4) 4).2.2
        (StackState.allocate ⟨100, 16, 100⟩ (memsetM zeroMem 100 255 4) 4).1.memory 4
        = [255, 255, 255, 255])
    ∧ [255, 255, 255, 255] ≠ List.replicate 4 0 := by decide

/-- Claim C4 (confirmed). Array::push on a full array (length =
capacity) attempts exactly one tryResize with exactly twice the block's
byte size, and its outcome is fully determined by that call: if the
resize fails and (per the allocator contract of C2) leaves block and
memory untouched, push returns false with the array, allocator state
and memory exactly as before; if the resize succeeds, push returns
true, length grows by exactly 1, the capacity becomes the resized
block's size (never shrunk for a doubling allocator), the new element
is stored at the old length, and — whenever the resize preserved the
old bytes — every previously pushed element is still readable at its
original index. A push below capacity always succeeds with the same
+1/preservation guarantees. -/
theorem c4_array_push_contract {σ : Type} (ops : AllocOps σ) (st : σ) (mem : Mem)
    (a : ArrayU8) (v : Nat) (hvalid : a.isValid = true) :
    ((a.size = a.capacity →
       ∀ st1, ops.tryResize st mem a.block (a.block.size * 2) = (false, a.block, st1, mem) →
         a.push ops st mem v = (false, a, st1, mem))
     ∧ (a.size = a.capacity →
       ∀ b1 st1 mem1, ops.tryResize st mem a.block (a.block.size * 2) = (true, b1, st1, mem1) →
         (a.push ops st mem v).1 = true
         ∧ (a.push ops st mem v).2.1.size = a.size + 1
         ∧ (a.push ops st mem v).2.1.capacity = b1.size
         ∧ (a.push ops st mem v).2.2.2 (b1.memory + a.size) = v
         ∧ ((∀ i, i < a.block.size → mem1 (b1.memory + i) = mem (a.block.memory + i)) →
             ∀ i, i < a.size →
               (a.push ops st mem v).2.2.2 ((a.push ops st mem v).2.1.block.memory + i)
                 = mem (a.block.memory + i)))
     ∧ (a.size ≠ a.capacity →
         (a.push ops st mem v).1 = true
         ∧ (a.push ops st mem v).2.1.size = a.size + 1
         ∧ (a.push ops st mem v).2.1.block = a.block
         ∧ (a.push ops st mem v).2.2.2 (a.block.memory + a.size) = v
         ∧ ∀ i, i < a.size →
             (a.push ops st mem v).2.2.2 (a.block.memory + i) = mem (a.block.memory + i))) := by
  have hnv : (!a.isValid) = false := by simp [hvalid]
  refine ⟨?_, ?_, ?_⟩
  · intro hcap st1 hres
    have hc : a.capacity = a.size := hcap.symm
    simp [ArrayU8.push, hnv, hc, hres]
  · intro hcap b1 st1 mem1 hres
    have hc : a.capacity = a.size := hcap.symm
    have hne : ∀ i, i < a.size → b1.memory + i ≠ b1.memory + a.size := by
      intro i hi
      omega
    refine ⟨?_, ?_, ?_, ?_, ?_⟩
    · simp [ArrayU8.push, hnv, hc, hres]
    · simp [ArrayU8.push, hnv, hc, hres]
    · simp [ArrayU8.push, hnv, hc, hres]
      try rfl
    · simp [ArrayU8.push, hnv, hc, hres, writeByte]
    · intro hpres i hi
      have hib : i < a.block.size := by
        have : a.capacity = a.block.size := rfl
        omega
      simp [ArrayU8.push, hnv, hc, hres, writeByte, hne i hi, hpres i hib]
  · intro hsne
    have hc : ¬(a.capacity = a.size) := fun h => hsne h.symm
    have hne : ∀ i, i < a.size → a.block.memory + i ≠ a.block.memory + a.size := by
      intro i hi
      omega
    refine ⟨?_, ?_, ?_, ?_, ?_⟩
    · simp [ArrayU8.push, hnv, hc]
    · simp [ArrayU8.push, hnv, hc]
    · simp [ArrayU8.push, hnv, hc]
    · simp [ArrayU8.push, hnv, hc, writeByte]
    · intro i hi
      simp [ArrayU8.push, hnv, hc, writeByte, hne i hi]

/-- Witness for C4: a full 8-byte array backed by an exhausted 8-byte
stack arena; the doubling resize fails and push reports failure with
everything unchanged. -/
theorem c4_witness :
    (⟨⟨100, 8⟩, 8⟩ : ArrayU8).isValid = true
    ∧ (⟨⟨100, 8⟩, 8⟩ : ArrayU8).size = (⟨⟨100, 8⟩, 8⟩ : ArrayU8).capacity
    ∧ stackOps.tryResize ⟨100, 8, 108⟩ zeroMem ⟨100, 8⟩ 16 = (false, ⟨100, 8⟩, ⟨100, 8, 108⟩, zeroMem)
    ∧ ArrayU8.push stackOps ⟨100, 8, 108⟩ zeroMem ⟨⟨100, 8⟩, 8⟩ 7 = (false, ⟨⟨100, 8⟩, 8⟩, ⟨100, 8, 108⟩, zeroMem) :=
  ⟨by decide, by decide, rfl,
   (c4_array_push_contract stackOps ⟨100, 8, 108⟩ zeroMem ⟨⟨100, 8⟩, 8⟩ 7 (by decide)).1
     (by decide) ⟨100, 8, 108⟩ rfl⟩

/-- Counterexample to C5 as stated: from a fresh 16-byte arena allocate
X = [100,104) then Y = [104,108); deallocating X first is refused as a
no-op (canDeallocate is false), so Y is still the most recent block and
tryResize(Y, 8) afterwards SUCCEEDS — the claim demands that it must
fail. -/
theorem c5_counterexample_resize_after_out_of_order_free_succeeds :
    ((StackState.deallocate ⟨100, 16, 108⟩ zeroMem ⟨100, 4⟩).2.1 = ⟨100, 16, 108⟩)
    ∧ (((StackState.deallocate ⟨100, 16, 108⟩ zeroMem ⟨100, 4⟩).2.1.tryResize
          zeroMem ⟨104, 4⟩ 8).1 = true) := by decide

/-- Claim C5 as amended: allocating X then Y, deallocating Y allows X
to be resized; deallocating X first is rejected (owns holds but
canDeallocate does not) and is a complete no-op — it neither rewinds
the pointer nor invalidates X — after which resizing the still-topmost
Y succeeds when the new size fits, while an out-of-order resize of the
non-topmost X is what fails. -/
theorem c5_arena_lifo_discipline :
    ((StackState.allocate ⟨100, 16, 100⟩ zeroMem 4).1 = ⟨100, 4⟩)
    ∧ ((StackState.allocate ⟨100, 16, 104⟩ zeroMem 4).1 = ⟨104, 4⟩)
    ∧ ((StackState.deallocate ⟨100, 16, 108⟩ zeroMem ⟨104, 4⟩).2.1.ptr = 104)
    ∧ (((StackState.deallocate ⟨100, 16, 108⟩ zeroMem ⟨104, 4⟩).2.1.tryResize
          zeroMem ⟨100, 4⟩ 8).1 = true)
    ∧ (StackState.owns ⟨100, 16, 108⟩ ⟨100, 4⟩ = true)
    ∧ (StackState.canDeallocate ⟨100, 16, 108⟩ ⟨100, 4⟩ = false)
    ∧ ((StackState.deallocate ⟨100, 16, 108⟩ zeroMem ⟨100, 4⟩).1 = ⟨100, 4⟩)
    ∧ ((StackState.deallocate ⟨100, 16, 108⟩ zeroMem ⟨100, 4⟩).2.1 = ⟨100, 16, 108⟩)
    ∧ ((StackState.tryResize ⟨100, 16, 108⟩ zeroMem ⟨100, 4⟩ 8).1 = false)
    ∧ ((StackState.tryResize ⟨100, 16, 108⟩ zeroMem ⟨104, 4⟩ 8).1 = true) := by decide

/-- Claim C6 (code bug). Array::swapRemove calls swap(index, --_size):
the member _size is decremented before swap runs, so swap's own asserted
preconditions (second < _size, first != second, _size > 0) are violated
on EVERY call — on the spec's [10,20,30] scenario, swapRemove(0) dies
on the "Array.swap: second index out of bound" assertion, swapRemove(2)
on the first-index assertion, and swapRemove of a single-element array
on the empty-array assertion, instead of returning the removed element.
The historical lowercase array variant (memory.hpp lines 558-563),
which swaps before decrementing, behaves exactly as the claim states:
swapRemove(0) returns 10, the length drops to 2, and the old last
element 30 now sits at index 0 (with 20 still at index 1). -/
theorem c6_swapRemove_trips_its_own_swap_asserts :
    (ArrayU8.swapRemove ⟨⟨100, 8⟩, 3⟩ memTen 0 = .error AErr.swapSecondOutOfBound)
    ∧ (ArrayU8.swapRemove ⟨⟨100, 8⟩, 3⟩ memTen 2 = .error AErr.swapFirstOutOfBound)
    ∧ (ArrayU8.swapRemove ⟨⟨100, 8⟩, 1⟩ memTen 0 = .error AErr.swapEmptyArray)
    ∧ (∃ mem1, ArrayOld.swapRemove ⟨100, 8, 3⟩ memTen 0 = .ok (10, ⟨100, 8, 2⟩, mem1)
        ∧ readBytes mem1 100 2 = [30, 20]) :=
  ⟨rfl, rfl, rfl, ⟨_, rfl, by decide⟩⟩

/-- Claim C7 (code bug). Array::get asserts only that the array is
valid and non-empty — it never checks index < _size — so on a length-3
array, get(5) silently returns the byte behind the block (here 0)
instead of failing with IndexOutOfRange; in-bounds reads do return the
stored element. The historical lowercase array's operator[] performs
the bounds check the claim describes and rejects index 5. -/
theorem c7_get_has_no_bounds_check :
    (ArrayU8.get ⟨⟨100, 8⟩, 3⟩ memTen 5 = .ok 0)
    ∧ (ArrayU8.get ⟨⟨100, 8⟩, 3⟩ memTen 1 = .ok 20)
    ∧ (ArrayOld.getIdx ⟨100, 8, 3⟩ memTen 5 = .error AErr.arrayAccessOutOfBounds)
    ∧ (ArrayOld.getIdx ⟨100, 8, 3⟩ memTen 1 = .ok 20) :=
  ⟨rfl, rfl, rfl, rfl⟩

/-- Counterexample to C8 as stated: constructing an Array with
requested capacity 0 performs no allocation at all — the block is the
empty { nullptr, 0 } block, capacity is 0, the array is invalid, the
empty block cannot be grown by the stack allocator's tryResize, and a
subsequent push fails. -/
theorem c8_counterexample_zero_capacity_array_is_empty :
    ((mkArrayU8 stackOps ⟨100, 16, 100⟩ zeroMem 0).1.block = emptyBlock)
    ∧ ((mkArrayU8 stackOps ⟨100, 16, 100⟩ zeroMem 0).1.isValid = false)
    ∧ ((mkArrayU8 stackOps ⟨100, 16, 100⟩ zeroMem 0).1.capacity = 0)
    ∧ ((StackState.tryResize ⟨100, 16, 100⟩ zeroMem emptyBlock 8).1 = false)
    ∧ ((ArrayU8.push stackOps ⟨100, 16, 100⟩ zeroMem
          (mkArrayU8 stackOps ⟨100, 16, 100⟩ zeroMem 0).1 5).1 = false) := by decide

/-- Claim C8 as amended: the Array constructor (memory.hpp lines
1880-1885) special-cases capacity 0 in the opposite direction — it
allocates nothing, leaving an invalid, capacity-0 array whose block
cannot be grown; it is the historical region constructor (memory.hpp
lines 138-144) that bumps a zero request to length 1 and allocates a
minimum block of capacity 1. -/
theorem c8_amended_zero_capacity_behavior {σ : Type} (ops : AllocOps σ) (st : σ) (mem : Mem)
    (f : Nat → Nat) (s : Nat) :
    mkArrayU8 ops st mem 0 = ({ block := emptyBlock, size := 0 }, st, mem)
    ∧ (mkArrayU8 ops st mem 0).1.isValid = false
    ∧ (mkArrayU8 ops st mem 0).1.capacity = 0
    ∧ regionMk f s 0 = { memory := f (s * 1), length := 1 }
    ∧ 1 ≤ (regionMk f s 0).length :=
  ⟨rfl, rfl, rfl, rfl, Nat.le_refl 1⟩

/-- Counterexample to C9 as stated: asked to write 5 elements from a
4-byte block, writeToFile does not return false — it trips the
"trying to write more elements than stored in the memory holder"
assertion (fatal in debug builds). -/
theorem c9_counterexample_overlong_write_asserts_instead_of_false :
    writeToFile true ⟨100, 4⟩ memTen 5 = .error AErr.writeTooManyElements := rfl

/-- Claim C9 as amended: when elementsToWrite exceeds the block size,
writeToFile fails the debug assertion rather than returning false
(whether or not the path can be opened); it returns false when the path
cannot be opened; and with elementsToWrite = 0 it writes the whole
block and returns true on success. -/
theorem c9_amended_writeToFile_contract (b : Block) (mem : Mem) (k : Nat)
    (hb : b.isValid = true) :
    (b.size < k →
       writeToFile true b mem k = .error AErr.writeTooManyElements
       ∧ writeToFile false b mem k = .error AErr.writeTooManyElements)
    ∧ (k ≤ b.size → writeToFile false b mem k = .ok (false, []))
    ∧ writeToFile true b mem 0 = .ok (true, readBytes mem b.memory b.size) := by
  refine ⟨?_, ?_, ?_⟩
  · intro hk
    have hge : ¬(b.size ≥ k) := by omega
    constructor <;> simp [writeToFile, hb, hge]
  · intro hk
    have hge : b.size ≥ k := hk
    simp [writeToFile, hb, hge]
  · simp [writeToFile, hb]

/-- Witness for C9: a valid 4-byte block at address 100 exercising the
overlong-write assertion, the unopenable-path failure, and the
whole-block write. -/
theorem c9_witness :
    (Block.isValid ⟨100, 4⟩ = true ∧ (4 : Nat) < 5 ∧ (2 : Nat) ≤ 4)
    ∧ writeToFile true ⟨100, 4⟩ memTen 5 = .error AErr.writeTooManyElements
    ∧ writeToFile false ⟨100, 4⟩ memTen 2 = .ok (false, [])
    ∧ writeToFile true ⟨100, 4⟩ memTen 0 = .ok (true, readBytes memTen 100 4) :=
  ⟨⟨by decide, by decide, by decide⟩,
   ((c9_amended_writeToFile_contract ⟨100, 4⟩ memTen 5 (by decide)).1 (by decide)).1,
   (c9_amended_writeToFile_contract ⟨100, 4⟩ memTen 2 (by decide)).2.1 (by decide),
   (c9_amended_writeToFile_contract ⟨100, 4⟩ memTen 0 (by decide)).2.2⟩

/-- Counterexample to C10 as stated: on a fresh 16-byte arena,
canAllocate(0) holds (the bump pointer stays within the buffer) yet
allocate(0) returns the block { _ptr, 0 }, which is not a valid block
(its size is 0) — so "allocate(n) returns a valid block iff
canAllocate(n)" fails at n = 0. -/
theorem c10_counterexample_allocate_zero :
    StackState.canAllocate ⟨100, 16, 100⟩ 0 = true
    ∧ (StackState.allocate ⟨100, 16, 100⟩ zeroMem 0).1.isValid = false := by decide

/-- Claim C10 as amended: for every requested size n ≥ 1 (and any stack
allocator whose buffer sits at a non-null base with the bump pointer at
or past it), allocate(n) returns a valid block iff canAllocate(n) held
at the moment of the call, and a returned valid block has size exactly
n and lies within the buffer (owns accepts it). -/
theorem c10_amended_stack_allocate_iff_canAllocate (st : StackState) (mem : Mem) (n : Nat)
    (hn : 1 ≤ n) (hbase : 1 ≤ st.base) (hwf : st.base ≤ st.ptr) :
    ((st.allocate mem n).1.isValid = true ↔ st.canAllocate n = true)
    ∧ ((st.allocate mem n).1.isValid = true →
        (st.allocate mem n).1.size = n ∧ st.owns (st.allocate mem n).1 = true) := by
  by_cases hc : st.canAllocate n = true
  · have hle : st.ptr + n ≤ st.base + st.SIZE := by
      simpa [StackState.canAllocate] using hc
    have hptr : st.ptr ≠ 0 := by omega
    refine ⟨?_, ?_⟩
    · simp [StackState.allocate, hc, Block.isValid, hptr]
      omega
    · intro _
      refine ⟨?_, ?_⟩
      · simp [StackState.allocate, hc]
      · simp [StackState.allocate, StackState.owns, hc, hptr]
        omega
  · have hcf : st.canAllocate n = false := by
      simpa using hc
    simp [StackState.allocate, hcf, emptyBlock, Block.isValid]

/-- Witness for C10: a fresh 16-byte arena at base 100 with n = 4. -/
theorem c10_witness :
    ((1 : Nat) ≤ 4 ∧ (1 : Nat) ≤ 100 ∧ (100 : Nat) ≤ 100)
    ∧ (((StackState.allocate ⟨100, 16, 100⟩ zeroMem 4).1.isValid = true
          ↔ StackState.canAllocate ⟨100, 16, 100⟩ 4 = true)
       ∧ ((StackState.allocate ⟨100, 16, 100⟩ zeroMem 4).1.isValid = true →
           (StackState.allocate ⟨100, 16, 100⟩ zeroMem 4).1.size = 4
           ∧ StackState.owns ⟨100, 16, 100⟩ (StackState.allocate ⟨100, 16, 100⟩ zeroMem 4).1 = true)) :=
  ⟨⟨by decide, by decide, by decide⟩,
   c10_amended_stack_allocate_iff_canAllocate ⟨100, 16, 100⟩ zeroMem 4
     (by decide) (by decide) (by decide)⟩

end CppUtils
